import Mathlib

/-!
Verification development for the droply file-metadata backend.

The repository exposes authentication-gated CRUD endpoints over a single
relational table of file/folder metadata (`files`), backed by an external
blob store (ImageKit).  This file shallowly embeds the route handlers as
pure Lean functions over an explicit database state (a list of rows) and
proves the behavioural properties of the specification against them.

Embedded routes:
  * `listFiles`          — GET  src/app/api/files/route.ts
  * `createFolder`       — POST src/app/api/upload/route.ts (folders section)
  * `registerUpload`     — POST src/app/api/upload/route.ts (register section)
  * `uploadAndRegister`  — POST src/app/api/files/upload/route.ts
  * `emptyTrash`         — DELETE src/unnamed/part_001

JavaScript truthiness on nullable strings (`if (x)`, `x || y`) is modelled
explicitly: an `Option String` is truthy iff it is `some s` with `s ≠ ""`.
Database-generated or uuid-generated identifiers are passed in as explicit
parameters of the embedded functions.
-/

namespace Droply

/-- One row of the `files` table: represents either a file or a folder,
discriminated by the `isFolder` flag (spec §3). -/
structure FileEntry where
  id : String
  name : String
  path : String
  size : Nat
  type : String
  fileUrl : String
  thumbnailUrl : Option String
  userId : String
  parentId : Option String
  isFolder : Bool
  isStarred : Bool
  isTrash : Bool
deriving DecidableEq, Repr

/-- Split of a character list at every occurrence of `c`, keeping empty
pieces; the backbone of the JavaScript `String.prototype.split` model. -/
def splitOnChar (c : Char) : List Char → List (List Char)
  | [] => [[]]
  | x :: xs =>
    let r := splitOnChar c xs
    if x == c then [] :: r
    else
      match r with
      | [] => [[x]]
      | h :: t => (x :: h) :: t

/-- JavaScript `s.split(sep)` for a one-character separator (the only form the
source uses: "?", "/" and ".").  Always yields at least one piece. -/
def jsSplit (s : String) (c : Char) : List String :=
  (splitOnChar c s.data).map String.mk

/-- Whether the first character list begins with the second. -/
def charsBeginWith : List Char → List Char → Bool
  | [], _ => true
  | _ :: _, [] => false
  | p :: ps, s :: ss => p == s && charsBeginWith ps ss

/-- JavaScript `s.startsWith(pre)`. -/
def jsStartsWith (s pre : String) : Bool :=
  charsBeginWith pre.data s.data

/-- ASCII whitespace, the whitespace relevant to the trimmed folder names. -/
def isWhite (c : Char) : Bool :=
  c == ' ' || c == '\t' || c == '\n' || c == '\r'

/-- JavaScript `s.trim()`: strip whitespace from both ends. -/
def jsTrim (s : String) : String :=
  String.mk (((s.data.dropWhile isWhite).reverse.dropWhile isWhite).reverse)

/-- JavaScript truthiness of a nullable string value: `null` and `""` are
falsy, every other string is truthy. -/
def optTruthy : Option String → Bool
  | none => false
  | some s => !(s == "")

/-- JavaScript `x || d` on a nullable string with a string default. -/
def orDefault (x : Option String) (d : String) : String :=
  match x with
  | none => d
  | some s => if s == "" then d else s

/-- JavaScript `x || null` on a nullable string: normalises falsy to `null`. -/
def orNull (x : Option String) : Option String :=
  if optTruthy x then x else none

/-- An HTTP error response body `{"error": msg}` together with its status. -/
structure ErrResp where
  status : Nat
  error : String
deriving DecidableEq, Repr

/-- The row predicate of the root-level listing query:
`userId = caller AND parentId IS NULL`. -/
def rootRowPred (u : String) (f : FileEntry) : Bool :=
  f.userId == u && f.parentId == none

/-- The row predicate of the in-folder listing query:
`userId = caller AND parentId = pv`. -/
def childRowPred (u pv : String) (f : FileEntry) : Bool :=
  f.userId == u && f.parentId == some pv

/-- GET handler of src/app/api/files/route.ts.  `authUserId` is the Clerk
authentication result, `queryUserId` and `parentId` the query parameters
(`none` when absent).  Returns the selected rows or an error response. -/
def listFiles (authUserId queryUserId parentId : Option String)
    (db : List FileEntry) : Except ErrResp (List FileEntry) :=
  match authUserId with
  | none => .error ⟨401, "Unauthorized"⟩
  | some userId =>
    -- if (!userId) — truthiness check on the authenticated id
    if userId == "" then .error ⟨401, "Unauthorized"⟩
    -- if (!queryUserId || queryUserId !== userId)
    else if !(optTruthy queryUserId) then .error ⟨401, "Unauthorized"⟩
    else if queryUserId ≠ some userId then .error ⟨401, "Unauthorized"⟩
    else
      -- if (parentId) { where userId = u and parentId = pv } else { where userId = u and parentId is null }
      match parentId with
      | some pv =>
        if pv ≠ "" then .ok (db.filter (childRowPred userId pv))
        else .ok (db.filter (rootRowPred userId))
      | none => .ok (db.filter (rootRowPred userId))

/-- The parent-lookup predicate used by both creation routes:
`id = pid AND userId = u AND isFolder = true`. -/
def parentPred (u pid : String) (f : FileEntry) : Bool :=
  f.id == pid && f.userId == u && f.isFolder

/-- POST handler of the folder-creation route in src/app/api/upload/route.ts.
`name`, `bodyUserId`, `parentId` come from the JSON body (`none` when the key
is absent or, for `name`, not a string).  `freshId` and `pathUuid` are the two
uuidv4 values drawn by the handler.  Returns the response together with the
database state after the call. -/
def createFolder (authUserId name bodyUserId parentId : Option String)
    (freshId pathUuid : String) (db : List FileEntry) :
    Except ErrResp FileEntry × List FileEntry :=
  match authUserId with
  | none => (.error ⟨401, "Unauthorized"⟩, db)
  | some userId =>
    -- if (!userId)
    if userId == "" then (.error ⟨401, "Unauthorized"⟩, db)
    -- if (bodyUserId !== userId)
    else if bodyUserId ≠ some userId then (.error ⟨401, "Unauthorized"⟩, db)
    else
      -- if (!name || typeof name !== "string" || name.trim() === "")
      match name with
      | none => (.error ⟨400, "Folder name is required"⟩, db)
      | some nm =>
        if jsTrim nm == "" then (.error ⟨400, "Folder name is required"⟩, db)
        else
          -- if (parentId) { select .. where id = parentId and userId = u and isFolder }
          if optTruthy parentId then
            match db.find? (parentPred userId (parentId.getD "")) with
            | none =>
              -- NOTE: the source rejects with HTTP status 401 here, not 404
              (.error ⟨401, "Parent folder not found"⟩, db)
            | some _ =>
              let folder : FileEntry :=
                { id := freshId, name := jsTrim nm
                  path := "/folders/" ++ userId ++ "/" ++ pathUuid
                  size := 0, type := "folder", fileUrl := ""
                  thumbnailUrl := none, userId := userId, parentId := parentId
                  isFolder := true, isStarred := false, isTrash := false }
              (.ok folder, db ++ [folder])
          else
            let folder : FileEntry :=
              { id := freshId, name := jsTrim nm
                path := "/folders/" ++ userId ++ "/" ++ pathUuid
                size := 0, type := "folder", fileUrl := ""
                thumbnailUrl := none, userId := userId, parentId := parentId
                isFolder := true, isStarred := false, isTrash := false }
            (.ok folder, db ++ [folder])

/-- The `imagekit` object of the register-upload request body; every field may
be absent. -/
structure IkPayload where
  name : Option String
  filePath : Option String
  size : Option Nat
  fileType : Option String
  url : Option String
  thumbnailUrl : Option String
deriving DecidableEq, Repr

/-- POST handler of the register-upload route in src/app/api/upload/route.ts.
`imagekit` is the blob-store result carried in the body (`none` when the key is
absent), `bodyUserId` the body's `userId` field, and `genId` the identifier the
database generates for the inserted row. -/
def registerUpload (authUserId : Option String) (imagekit : Option IkPayload)
    (bodyUserId : Option String) (genId : String) (db : List FileEntry) :
    Except ErrResp FileEntry × List FileEntry :=
  match authUserId with
  | none => (.error ⟨401, "Unauthorized"⟩, db)
  | some userId =>
    -- if (!userId)
    if userId == "" then (.error ⟨401, "Unauthorized"⟩, db)
    -- if (bodyUserId !== userId)
    else if bodyUserId ≠ some userId then (.error ⟨401, "Unauthorized"⟩, db)
    else
      -- if (!imagekit || !imagekit.url) — NOTE: the source uses status 401 here
      match imagekit with
      | none => (.error ⟨401, "Invalid file upload data"⟩, db)
      | some ik =>
        match ik.url with
        | none => (.error ⟨401, "Invalid file upload data"⟩, db)
        | some url =>
          if url == "" then (.error ⟨401, "Invalid file upload data"⟩, db)
          else
            let row : FileEntry :=
              { id := genId
                name := orDefault ik.name "Untitled"
                -- imagekit.filePath || `/droply/${userId}/${imagekit.name}`
                -- (a JS template turns an undefined name into "undefined")
                path := orDefault ik.filePath
                  ("/droply/" ++ userId ++ "/" ++ (ik.name.getD "undefined"))
                size := ik.size.getD 0
                type := orDefault ik.fileType "image"
                fileUrl := url
                thumbnailUrl := orNull ik.thumbnailUrl
                userId := userId, parentId := none
                isFolder := false, isStarred := false, isTrash := false }
            (.ok row, db ++ [row])

/-- The uploaded file of the combined route: original name, declared MIME type
and byte size. -/
structure UFile where
  name : String
  type : String
  size : Nat
deriving DecidableEq, Repr

/-- What `imagekit.upload` returns: retrieval URL, optional thumbnail URL and
canonical stored path. -/
structure UploadResponse where
  url : String
  thumbnailUrl : Option String
  filePath : String
deriving DecidableEq, Repr

/-- POST handler of src/app/api/files/upload/route.ts (combined
upload-and-register).  `file`, `formUserId`, `parentIdRaw` come from the
multipart form, `freshUuid` is the uuidv4 drawn for the storage filename,
`upload` models the blob-store call (filename and folder path to response),
and `genId` the database-generated row identifier.  The handler looks the
parent folder up but never inspects the result; only the absence of
`parentId` is rejected. -/
def uploadAndRegister (authUserId : Option String) (file : Option UFile)
    (formUserId parentIdRaw : Option String) (freshUuid : String)
    (upload : String → String → UploadResponse) (genId : String)
    (db : List FileEntry) : Except ErrResp FileEntry × List FileEntry :=
  match authUserId with
  | none => (.error ⟨401, "Unauthorized"⟩, db)
  | some userId =>
    -- if (!userId)
    if userId == "" then (.error ⟨401, "Unauthorized"⟩, db)
    else
      -- const parentId = formData.get("parentId") as string || null
      let parentId := orNull parentIdRaw
      -- if (formUserId !== userId)
      if formUserId ≠ some userId then (.error ⟨401, "Unauthorized"⟩, db)
      else
        match file with
        -- if (!file) — NOTE: the source uses status 401 here
        | none => (.error ⟨401, "No file provided"⟩, db)
        | some f =>
          -- if (parentId) { select .. where id, userId, isFolder } —
          -- the selected row is bound but never checked (source bug)
          let _parentLookup :=
            if optTruthy parentId then
              db.find? (parentPred userId (parentId.getD ""))
            else none
          -- if (!parentId) → 404; a present but unresolvable parentId passes
          if parentId = none then
            (.error ⟨404, "Parent folder not found"⟩, db)
          else if !(jsStartsWith f.type "image/") && f.type ≠ "application/pdf" then
            (.error ⟨400, "Only images and pdf are supported"⟩, db)
          else
            -- const fileExtension = originalFilename.split(".").pop() || ""
            let fileExtension := (jsSplit f.name '.').getLastD ""
            let uniqueFilename := freshUuid ++ "." ++ fileExtension
            let folderPath :=
              match parentId with
              | some p => "/droply/" ++ userId ++ "/folder/" ++ p
              | none => "/droply/" ++ userId
            let uploadResponse := upload uniqueFilename folderPath
            let row : FileEntry :=
              { id := genId, name := f.name
                path := uploadResponse.filePath
                size := f.size, type := f.type
                fileUrl := uploadResponse.url
                thumbnailUrl := orNull uploadResponse.thumbnailUrl
                userId := userId, parentId := parentId
                isFolder := false, isStarred := false, isTrash := false }
            (.ok row, db ++ [row])

/-- One object stored in the blob store, as seen through `imagekit.listFiles`:
a name, a deletion identifier, and whether the SDK result is a file object
(folder objects carry no `fileId`; the handler guards on this). -/
structure BlobFile where
  fileId : String
  name : String
  isFileObj : Bool
deriving DecidableEq, Repr

/-- The blob-store side of an Empty Trash call: the stored objects plus two
failure oracles saying which `listFiles` searches and which `deleteFile` calls
throw.  The oracles let the theorems quantify over every pattern of individual
blob-deletion outcomes. -/
structure BlobEnv where
  store : List BlobFile
  listFails : String → Bool
  deleteFails : String → Bool

/-- JavaScript `s.split("?")[0]`. -/
def stripQuery (s : String) : String := (jsSplit s '?').headD ""

/-- JavaScript `s.split("/").pop()` (never undefined: split yields at least
one element). -/
def lastSegment (s : String) : String := (jsSplit s '/').getLastD ""

/-- Derivation of the ImageKit object identifier for one trashed row
(src/unnamed/part_001, lines 40-49): from the stored URL with the query
string stripped and the final path segment taken, or, when that is falsy,
from the final segment of the stored path; `none` when no truthy identifier
results. -/
def deriveFileId (f : FileEntry) : Option String :=
  let fromUrl : Option String :=
    if f.fileUrl == "" then none
    else some (lastSegment (stripQuery f.fileUrl))
  let combined : Option String :=
    if !(optTruthy fromUrl) && !(f.path == "") then some (lastSegment f.path)
    else fromUrl
  if optTruthy combined then combined else none

/-- The sequence of `deleteFile` identifiers attempted for one derived
identifier (src/unnamed/part_001, lines 51-79).  A failed `listFiles` search
falls back to direct deletion in the catch block; a failed `deleteFile` after
a successful search is caught by the same block, which then attempts direct
deletion by the derived identifier; a search hit that is not a file object is
only logged. -/
def fileAttempts (env : BlobEnv) (fid : String) : List String :=
  if env.listFails fid then [fid]
  else
    match env.store.find? (fun b => b.name == fid) with
    | some m =>
      if m.isFileObj then
        if env.deleteFails m.fileId then [m.fileId, fid] else [m.fileId]
      else []
    | none =>
      if env.deleteFails fid then [fid, fid] else [fid]

/-- Blob-deletion attempts for one trashed row: nothing when no identifier
can be derived. -/
def rowAttempts (env : BlobEnv) (f : FileEntry) : List String :=
  match deriveFileId f with
  | none => []
  | some fid => fileAttempts env fid

/-- The trashed-rows query: `userId = u AND isTrash = true`. -/
def trashedOf (u : String) (db : List FileEntry) : List FileEntry :=
  db.filter (fun f => f.userId == u && f.isTrash)

/-- Response of the Empty Trash endpoint: 401, the zero-effect
`"No files in trash"` answer, or the success body whose message carries the
number of rows deleted from the database. -/
inductive TrashRes where
  | unauthorized
  | noFiles
  | success (count : Nat)
deriving DecidableEq, Repr

/-- DELETE handler of src/unnamed/part_001 (Empty Trash).  Returns the
response, the database state after the call, and the ordered list of
`deleteFile` identifiers attempted against the blob store. -/
def emptyTrash (authUserId : Option String) (env : BlobEnv)
    (db : List FileEntry) : TrashRes × List FileEntry × List String :=
  match authUserId with
  | none => (.unauthorized, db, [])
  | some userId =>
    -- if (!userId)
    if userId == "" then (.unauthorized, db, [])
    else
      let trashedFiles := trashedOf userId db
      if trashedFiles.length == 0 then (.noFiles, db, [])
      else
        let attempts :=
          ((trashedFiles.filter (fun f => !f.isFolder)).map
            (rowAttempts env)).flatten
        let deletedFiles := db.filter (fun f => f.userId == userId && f.isTrash)
        let remaining := db.filter (fun f => !(f.userId == userId && f.isTrash))
        (.success deletedFiles.length, remaining, attempts)

/-- The specification's wording of the identifier derivation used by Empty
Trash: the final path segment of the query-stripped URL or, failing that, the
final segment of the stored path.  Compared against `deriveFileId`, which is
translated from the handler's statement sequence. -/
def deriveFileIdSpec (f : FileEntry) : Option String :=
  if f.fileUrl ≠ "" ∧ lastSegment (stripQuery f.fileUrl) ≠ "" then
    some (lastSegment (stripQuery f.fileUrl))
  else if f.path ≠ "" ∧ lastSegment f.path ≠ "" then
    some (lastSegment f.path)
  else none

/-- Fixture: a file (not a folder) with identifier p9, owned by u1. -/
def p9File : FileEntry :=
  ⟨"p9", "notes.pdf", "/droply/u1/notes.pdf", 7, "application/pdf",
    "https://ik.io/u1/notes.pdf", none, "u1", none, false, false, false⟩

/-- Fixture: a trashed file row owned by u1. -/
def trashedRow : FileEntry :=
  ⟨"t1", "a.png", "/droply/u1/a.png", 5, "image/png",
    "https://ik.io/u1/a.png?x=1", none, "u1", none, false, false, true⟩

/-- Fixture: a blob-store environment in which no call fails and every stored
object is a file object. -/
def calmEnv : BlobEnv :=
  ⟨[⟨"blob9", "a.png", true⟩], fun _ => false, fun _ => false⟩

/-- Fixture: the folder row produced by a successful root-level Create Folder
with trimmed name "docs", fresh id "id1" and path uuid "pu1" for owner u1. -/
def docsFolder : FileEntry :=
  ⟨"id1", "docs", "/folders/u1/pu1", 0, "folder", "", none, "u1", none,
    true, false, false⟩

/-- C1: the combined upload-and-register route is claimed to reject with
NotFound whenever the parent identifier is absent or does not resolve to an
owned folder.  The source only rejects the absent case: here the parent
identifier "ghost" resolves to nothing in an empty database, yet the call
succeeds and creates a row whose parentId is "ghost". -/
theorem uploadAndRegister_unresolvable_parent_creates_row :
    ∃ row : FileEntry,
      uploadAndRegister (some "u1") (some ⟨"a.png", "image/png", 5⟩)
        (some "u1") (some "ghost") "uu1"
        (fun n p => ⟨"https://ik.io/" ++ n, none, p ++ "/" ++ n⟩) "gen1" [] =
        (Except.ok row, [row]) ∧
      row.parentId = some "ghost" ∧ row.isFolder = false := by
  refine ⟨{ id := "gen1", name := "a.png", path := "/droply/u1/folder/ghost/uu1.png",
            size := 5, type := "image/png", fileUrl := "https://ik.io/uu1.png",
            thumbnailUrl := none, userId := "u1", parentId := some "ghost",
            isFolder := false, isStarred := false, isTrash := false }, ?_, rfl, rfl⟩
  rfl

/-- C9: a List request whose userId query parameter is absent is rejected with
Unauthorized even for an authenticated caller, and rows are only ever returned
when the parameter equals the authenticated identity. -/
theorem listFiles_userId_param_required (u : String) (q pid : Option String)
    (db : List FileEntry) :
    (q = none → listFiles (some u) q pid db = Except.error ⟨401, "Unauthorized"⟩) ∧
    (∀ rows, listFiles (some u) q pid db = Except.ok rows → q = some u) := by
  constructor
  · rintro rfl
    by_cases h : u = "" <;> simp [listFiles, optTruthy, h]
  · intro rows h
    simp only [listFiles] at h
    by_cases h0 : u = ""
    · rw [if_pos (by simp [h0])] at h
      exact absurd h (by simp)
    · rw [if_neg (by simp [h0])] at h
      by_cases h1 : optTruthy q = true
      · rw [if_neg (by simp [h1])] at h
        by_cases h2 : q = some u
        · exact h2
        · rw [if_pos h2] at h
          exact absurd h (by simp)
      · rw [if_pos (by simp [h1])] at h
        exact absurd h (by simp)

theorem listFiles_userId_param_required_witness :
    listFiles (some "u1") none none [p9File] = Except.error ⟨401, "Unauthorized"⟩ :=
  (listFiles_userId_param_required "u1" none none [p9File]).1 rfl

/-- C2: for an authenticated caller whose userId parameter matches, List
returns exactly the caller's rows under the given parent (or the caller's
root rows when no parent is given), and no successful listing ever contains
a row owned by someone other than the authenticated caller. -/
theorem listFiles_returns_exactly_callers_rows (u : String) (db : List FileEntry)
    (hu : u ≠ "") :
    (∀ pv : String, pv ≠ "" →
      ∃ rows, listFiles (some u) (some u) (some pv) db = Except.ok rows ∧
        ∀ f, f ∈ rows ↔ (f ∈ db ∧ f.userId = u ∧ f.parentId = some pv)) ∧
    (∃ rows, listFiles (some u) (some u) none db = Except.ok rows ∧
      ∀ f, f ∈ rows ↔ (f ∈ db ∧ f.userId = u ∧ f.parentId = none)) ∧
    (∀ (q p : Option String) (rows : List FileEntry) (f : FileEntry),
      listFiles (some u) q p db = Except.ok rows → f ∈ rows → f.userId = u) := by
  refine ⟨?_, ?_, ?_⟩
  · intro pv hpv
    refine ⟨db.filter (childRowPred u pv), ?_, ?_⟩
    · simp [listFiles, optTruthy, hu, hpv]
    · intro f
      simp [List.mem_filter, childRowPred, and_assoc]
  · refine ⟨db.filter (rootRowPred u), ?_, ?_⟩
    · simp [listFiles, optTruthy, hu]
    · intro f
      simp [List.mem_filter, rootRowPred, and_assoc]
  · intro q p rows f h hf
    simp only [listFiles] at h
    rw [if_neg (by simp [hu])] at h
    by_cases h1 : optTruthy q = true
    · rw [if_neg (by simp [h1])] at h
      by_cases h2 : q = some u
      · rw [if_neg (by simp [h2])] at h
        match p with
        | some pv =>
          simp only [] at h
          by_cases h3 : pv = ""
          · rw [if_neg (by simp [h3])] at h
            rw [Except.ok.injEq] at h
            subst h
            have hm := (List.mem_filter.mp hf).2
            simp [rootRowPred] at hm
            exact hm.1
          · rw [if_pos h3] at h
            rw [Except.ok.injEq] at h
            subst h
            have hm := (List.mem_filter.mp hf).2
            simp [childRowPred] at hm
            exact hm.1
        | none =>
          simp only [] at h
          rw [Except.ok.injEq] at h
          subst h
          have hm := (List.mem_filter.mp hf).2
          simp [rootRowPred] at hm
          exact hm.1
      · rw [if_pos h2] at h
        exact absurd h (by simp)
    · rw [if_pos (by simp [h1])] at h
      exact absurd h (by simp)

theorem listFiles_returns_exactly_callers_rows_witness :
    ((¬ ("u1" : String) = "") ∧
      ∃ rows, listFiles (some "u1") (some "u1") none [p9File, trashedRow] =
          Except.ok rows ∧
        ∀ f, f ∈ rows ↔
          (f ∈ [p9File, trashedRow] ∧ f.userId = "u1" ∧ f.parentId = none)) :=
  ⟨by decide,
    (listFiles_returns_exactly_callers_rows "u1" [p9File, trashedRow]
      (by decide)).2.1⟩

/-- C3, counterexample: creating a folder under parent "p9", which is a file
owned by the caller rather than a folder, is rejected — but the rejection
carries HTTP status 401, not the claimed 404. -/
theorem createFolder_parent_not_found_is_401_not_404 :
    (createFolder (some "u1") (some "docs") (some "u1") (some "p9")
        "id1" "pu1" [p9File]).1 =
      Except.error ⟨401, "Parent folder not found"⟩ ∧
    ((401 : Nat) ≠ 404) := by
  exact ⟨rfl, by decide⟩

/-- C3, amended: when a truthy parent identifier is supplied that does not
reference an existing FileEntry owned by the caller with isFolder = true,
Folder Creation rejects with the "Parent folder not found" error — carrying
HTTP status 401 rather than 404 — and never creates a row. -/
theorem createFolder_unresolvable_parent_rejected (u nm p : String)
    (freshId pathUuid : String) (db : List FileEntry)
    (hu : u ≠ "") (hn : jsTrim nm ≠ "") (hp : p ≠ "")
    (hnores : ∀ f ∈ db, ¬ (f.id = p ∧ f.userId = u ∧ f.isFolder = true)) :
    createFolder (some u) (some nm) (some u) (some p) freshId pathUuid db =
      (Except.error ⟨401, "Parent folder not found"⟩, db) := by
  have hfind : db.find? (parentPred u p) = none := by
    rw [List.find?_eq_none]
    intro f hf
    have := hnores f hf
    simp only [parentPred, Bool.and_eq_true, beq_iff_eq]
    intro hcontra
    exact this ⟨hcontra.1.1, hcontra.1.2, hcontra.2⟩
  simp [createFolder, optTruthy, hu, hn, hp, hfind]

theorem createFolder_unresolvable_parent_rejected_witness :
    createFolder (some "u1") (some "docs") (some "u1") (some "p9")
        "id1" "pu1" [p9File] =
      (Except.error ⟨401, "Parent folder not found"⟩, [p9File]) :=
  createFolder_unresolvable_parent_rejected "u1" "docs" "p9" "id1" "pu1"
    [p9File] (by decide) (by decide) (by decide) (by decide)

/-- C5: whenever Folder Creation succeeds, the returned row carries the
freshly generated identifier, the trimmed input name, the synthesized
per-owner storage path, size zero, the folder markers (type "folder",
isFolder, empty fileUrl), the supplied parent reference unchanged (absent
when none was supplied), and it is the row appended to the database. -/
theorem createFolder_success_shape (a nm bu pid : Option String)
    (freshId pathUuid : String) (db db2 : List FileEntry) (f : FileEntry)
    (h : createFolder a nm bu pid freshId pathUuid db = (Except.ok f, db2)) :
    f.id = freshId ∧ f.size = 0 ∧ f.type = "folder" ∧ f.isFolder = true ∧
    f.fileUrl = "" ∧ f.thumbnailUrl = none ∧ f.parentId = pid ∧
    (∃ n, nm = some n ∧ f.name = jsTrim n) ∧
    (∃ u, a = some u ∧ f.userId = u ∧
      f.path = "/folders/" ++ u ++ "/" ++ pathUuid) ∧
    db2 = db ++ [f] := by
  match a with
  | none => simp [createFolder] at h
  | some u =>
    simp only [createFolder] at h
    by_cases h0 : u = ""
    · rw [if_pos (by simp [h0])] at h
      exact absurd h (by simp)
    · rw [if_neg (by simp [h0])] at h
      by_cases h1 : bu = some u
      · rw [if_neg (by simp [h1])] at h
        match nm with
        | none => exact absurd h (by simp)
        | some n =>
          simp only [] at h
          by_cases h2 : jsTrim n = ""
          · rw [if_pos (by simp [h2])] at h
            exact absurd h (by simp)
          · rw [if_neg (by simp [h2])] at h
            by_cases h3 : optTruthy pid = true
            · rw [if_pos h3] at h
              match hfind : db.find? (parentPred u (pid.getD "")) with
              | none =>
                rw [hfind] at h
                exact absurd h (by simp)
              | some pf =>
                rw [hfind] at h
                rw [Prod.mk.injEq, Except.ok.injEq] at h
                obtain ⟨hfld, hdb⟩ := h
                subst hfld
                exact ⟨rfl, rfl, rfl, rfl, rfl, rfl, rfl,
                  ⟨n, rfl, rfl⟩, ⟨u, rfl, rfl, rfl⟩, hdb.symm⟩
            · rw [if_neg h3] at h
              rw [Prod.mk.injEq, Except.ok.injEq] at h
              obtain ⟨hfld, hdb⟩ := h
              subst hfld
              exact ⟨rfl, rfl, rfl, rfl, rfl, rfl, rfl,
                ⟨n, rfl, rfl⟩, ⟨u, rfl, rfl, rfl⟩, hdb.symm⟩
      · rw [if_pos h1] at h
        exact absurd h (by simp)

theorem createFolder_success_shape_witness :
    docsFolder.id = "id1" ∧ docsFolder.size = 0 ∧ docsFolder.type = "folder" ∧
    docsFolder.isFolder = true ∧ docsFolder.fileUrl = "" ∧
    docsFolder.thumbnailUrl = none ∧ docsFolder.parentId = none ∧
    (∃ n, (some " docs " : Option String) = some n ∧
      docsFolder.name = jsTrim n) ∧
    (∃ u, (some "u1" : Option String) = some u ∧ docsFolder.userId = u ∧
      docsFolder.path = "/folders/" ++ u ++ "/" ++ "pu1") ∧
    ([docsFolder] : List FileEntry) = [] ++ [docsFolder] :=
  createFolder_success_shape (some "u1") (some " docs ") (some "u1") none
    "id1" "pu1" [] [docsFolder] docsFolder rfl

/-- C6, counterexample: an authenticated, identity-matching register-upload
call whose blob-store result lacks a URL is rejected and creates no row, but
the rejection carries HTTP status 401, not the claimed 400. -/
theorem registerUpload_missing_url_is_401_not_400 :
    (registerUpload (some "u1") (some ⟨none, none, none, none, none, none⟩)
        (some "u1") "g1" []).1 =
      Except.error ⟨401, "Invalid file upload data"⟩ ∧
    ((401 : Nat) ≠ 400) := by
  exact ⟨rfl, by decide⟩

/-- C6, amended: for an authenticated, identity-matching caller, a supplied
blob-store result whose URL is absent (or empty) is rejected with the
"Invalid file upload data" error — carrying HTTP status 401 rather than
400 — and no row is created. -/
theorem registerUpload_missing_url_rejected (u genId : String) (ik : IkPayload)
    (db : List FileEntry) (hu : u ≠ "") (hurl : optTruthy ik.url = false) :
    registerUpload (some u) (some ik) (some u) genId db =
      (Except.error ⟨401, "Invalid file upload data"⟩, db) := by
  match hik : ik.url with
  | none => simp [registerUpload, hik, hu]
  | some s =>
    rw [hik] at hurl
    simp only [optTruthy, Bool.not_eq_false'] at hurl
    simp [registerUpload, hik, hu, hurl]

theorem registerUpload_missing_url_rejected_witness :
    registerUpload (some "u1") (some ⟨some "a.png", none, some 5, none,
        none, none⟩) (some "u1") "g1" [p9File] =
      (Except.error ⟨401, "Invalid file upload data"⟩, [p9File]) :=
  registerUpload_missing_url_rejected "u1" "g1"
    ⟨some "a.png", none, some 5, none, none, none⟩ [p9File]
    (by decide) (by decide)

/-- Helper: an authenticated Empty Trash call that finds no trashed rows
answers "No files in trash" and changes nothing. -/
theorem emptyTrash_noFiles_eq (u : String) (env : BlobEnv)
    (db : List FileEntry) (hu : u ≠ "")
    (hlen : (trashedOf u db).length = 0) :
    emptyTrash (some u) env db = (TrashRes.noFiles, db, []) := by
  simp only [emptyTrash]
  rw [if_neg (by simp [hu]), if_pos (by simp [hlen])]

/-- Helper: an authenticated Empty Trash call that finds trashed rows answers
success with their count, filters them out of the database, and issues the
per-row blob-deletion attempts for the non-folder rows. -/
theorem emptyTrash_success_eq (u : String) (env : BlobEnv)
    (db : List FileEntry) (hu : u ≠ "")
    (hlen : ¬ (trashedOf u db).length = 0) :
    emptyTrash (some u) env db =
      (TrashRes.success (trashedOf u db).length,
        db.filter (fun f => !(f.userId == u && f.isTrash)),
        (((trashedOf u db).filter (fun f => !f.isFolder)).map
          (rowAttempts env)).flatten) := by
  simp only [emptyTrash]
  rw [if_neg (by simp [hu]), if_neg (by simp [hlen])]
  rfl

/-- Helper: the trash-purge filter leaves no trashed row of the caller. -/
theorem purged_has_no_trashed (u : String) (db : List FileEntry) :
    trashedOf u (db.filter (fun f => !(f.userId == u && f.isTrash))) = [] := by
  rw [trashedOf, List.filter_eq_nil_iff]
  intro g hg
  have h2 := (List.mem_filter.mp hg).2
  simp only [Bool.not_eq_true'] at h2
  simp [h2]

/-- C4: for an authenticated caller with at least one trashed row, Empty
Trash deletes every row of the caller with isTrash = true from the database
in one filtering step and answers success carrying the number of rows
deleted — for every pattern of blob-store failures, which are therefore
never surfaced to the caller. -/
theorem emptyTrash_clears_trash_and_reports_count (u : String) (env : BlobEnv)
    (db : List FileEntry) (hu : u ≠ "") (hne : trashedOf u db ≠ []) :
    (emptyTrash (some u) env db).1 =
      TrashRes.success (trashedOf u db).length ∧
    (emptyTrash (some u) env db).2.1 =
      db.filter (fun f => !(f.userId == u && f.isTrash)) ∧
    (∀ env2 : BlobEnv,
      (emptyTrash (some u) env2 db).1 = (emptyTrash (some u) env db).1 ∧
      (emptyTrash (some u) env2 db).2.1 = (emptyTrash (some u) env db).2.1) := by
  have hlen : ¬ (trashedOf u db).length = 0 := by
    simpa [List.length_eq_zero] using hne
  refine ⟨?_, ?_, ?_⟩
  · rw [emptyTrash_success_eq u env db hu hlen]
  · rw [emptyTrash_success_eq u env db hu hlen]
  · intro env2
    rw [emptyTrash_success_eq u env db hu hlen,
      emptyTrash_success_eq u env2 db hu hlen]
    exact ⟨rfl, rfl⟩

theorem emptyTrash_clears_trash_and_reports_count_witness :
    (emptyTrash (some "u1") calmEnv [p9File, trashedRow]).1 =
      TrashRes.success (trashedOf "u1" [p9File, trashedRow]).length ∧
    (emptyTrash (some "u1") calmEnv [p9File, trashedRow]).2.1 =
      [p9File, trashedRow].filter (fun f => !(f.userId == "u1" && f.isTrash)) :=
  ⟨(emptyTrash_clears_trash_and_reports_count "u1" calmEnv
      [p9File, trashedRow] (by decide) (by decide)).1,
    (emptyTrash_clears_trash_and_reports_count "u1" calmEnv
      [p9File, trashedRow] (by decide) (by decide)).2.1⟩

/-- C10: the database deletion of Empty Trash is exactly scoped — a row
survives the call precisely when it was in the database and is not a trashed
row of the caller, so rows of other users and non-trashed rows of the caller
are untouched. -/
theorem emptyTrash_frame (u : String) (env : BlobEnv) (db : List FileEntry)
    (f : FileEntry) (hu : u ≠ "") :
    f ∈ (emptyTrash (some u) env db).2.1 ↔
      (f ∈ db ∧ ¬ (f.userId = u ∧ f.isTrash = true)) := by
  by_cases h : (trashedOf u db).length = 0
  · rw [emptyTrash_noFiles_eq u env db hu h]
    have hnil : trashedOf u db = [] := List.length_eq_zero.mp h
    rw [trashedOf] at hnil
    constructor
    · intro hf
      refine ⟨hf, ?_⟩
      have := List.filter_eq_nil_iff.mp hnil f hf
      simpa using this
    · exact And.left
  · rw [emptyTrash_success_eq u env db hu h]
    show f ∈ db.filter (fun f => !(f.userId == u && f.isTrash)) ↔ _
    rw [List.mem_filter]
    constructor
    · rintro ⟨hf, hp⟩
      simp only [Bool.not_eq_true', Bool.and_eq_false_iff] at hp
      refine ⟨hf, ?_⟩
      rintro ⟨hid, htr⟩
      rcases hp with hp | hp
      · exact absurd hid (by simpa using hp)
      · exact absurd htr (by simpa using hp)
    · rintro ⟨hf, hp⟩
      refine ⟨hf, ?_⟩
      simp only [Bool.not_eq_true', Bool.and_eq_false_iff]
      by_cases hid : f.userId = u
      · right
        by_cases htr : f.isTrash = true
        · exact absurd ⟨hid, htr⟩ hp
        · simpa using htr
      · left
        simpa using hid

theorem emptyTrash_frame_witness :
    (p9File ∈ (emptyTrash (some "u1") calmEnv [p9File, trashedRow]).2.1 ↔
      (p9File ∈ [p9File, trashedRow] ∧
        ¬ (p9File.userId = "u1" ∧ p9File.isTrash = true))) :=
  emptyTrash_frame "u1" calmEnv [p9File, trashedRow] p9File (by decide)

/-- C8: Empty Trash is idempotent — immediately after any authenticated
Empty Trash call, a second call by the same caller finds no trashed rows,
attempts no deletion (neither in the database nor against the blob store)
and returns the zero-effect success. -/
theorem emptyTrash_idempotent (u : String) (env env2 : BlobEnv)
    (db : List FileEntry) (hu : u ≠ "") :
    emptyTrash (some u) env2 (emptyTrash (some u) env db).2.1 =
      (TrashRes.noFiles, (emptyTrash (some u) env db).2.1, []) := by
  have hnil : trashedOf u (emptyTrash (some u) env db).2.1 = [] := by
    by_cases h : (trashedOf u db).length = 0
    · rw [emptyTrash_noFiles_eq u env db hu h]
      exact List.length_eq_zero.mp h
    · rw [emptyTrash_success_eq u env db hu h]
      exact purged_has_no_trashed u db
  exact emptyTrash_noFiles_eq u env2 _ hu (by simp [hnil])

theorem emptyTrash_idempotent_witness :
    emptyTrash (some "u1") calmEnv
        (emptyTrash (some "u1") calmEnv [p9File, trashedRow]).2.1 =
      (TrashRes.noFiles,
        (emptyTrash (some "u1") calmEnv [p9File, trashedRow]).2.1, []) :=
  emptyTrash_idempotent "u1" calmEnv calmEnv [p9File, trashedRow] (by decide)

/-- Helper: with a blob store where no search or deletion fails and every
stored object is a file object, the deletion attempts for one derived
identifier are the name-lookup match's identifier, or the derived identifier
itself when the lookup misses. -/
theorem fileAttempts_calm (env : BlobEnv) (fid : String)
    (hl : env.listFails fid = false)
    (hd : ∀ s, env.deleteFails s = false)
    (hfo : ∀ b ∈ env.store, b.isFileObj = true) :
    fileAttempts env fid =
      match env.store.find? (fun b => b.name == fid) with
      | some m => [m.fileId]
      | none => [fid] := by
  rw [fileAttempts, hl, if_neg (by simp)]
  cases hfind : env.store.find? (fun b => b.name == fid) with
  | none => simp [hd]
  | some m =>
    have hmem := List.mem_of_find?_eq_some hfind
    simp [hfo m hmem, hd]

/-- C7: in Empty Trash, blob deletion is attempted only for the non-folder
trashed rows; each such row's candidate identifier is derived exactly as the
specification words it (query-stripped final URL segment, else final path
segment); and with a well-behaved blob store the derived identifier is first
resolved by name, a match's identifier being deleted and a miss falling back
to direct deletion by the derived identifier. -/
theorem emptyTrash_blob_deletion_plan (u : String) (env : BlobEnv)
    (db : List FileEntry) (hu : u ≠ "")
    (hl : ∀ s, env.listFails s = false)
    (hd : ∀ s, env.deleteFails s = false)
    (hfo : ∀ b ∈ env.store, b.isFileObj = true) :
    (emptyTrash (some u) env db).2.2 =
      (((trashedOf u db).filter (fun f => !f.isFolder)).map
        (rowAttempts env)).flatten ∧
    (∀ f : FileEntry,
      rowAttempts env f =
        match deriveFileId f with
        | none => []
        | some fid =>
          match env.store.find? (fun b => b.name == fid) with
          | some m => [m.fileId]
          | none => [fid]) ∧
    (∀ f : FileEntry, deriveFileId f = deriveFileIdSpec f) := by
  refine ⟨?_, ?_, ?_⟩
  · by_cases h : (trashedOf u db).length = 0
    · rw [emptyTrash_noFiles_eq u env db hu h, List.length_eq_zero.mp h]
      rfl
    · rw [emptyTrash_success_eq u env db hu h]
  · intro f
    rw [rowAttempts]
    cases deriveFileId f with
    | none => rfl
    | some fid => exact fileAttempts_calm env fid (hl fid) hd hfo
  · intro f
    by_cases h1 : f.fileUrl = ""
    · by_cases h2 : f.path = ""
      · simp [deriveFileId, deriveFileIdSpec, optTruthy, h1, h2]
      · by_cases h3 : lastSegment f.path = "" <;>
          simp [deriveFileId, deriveFileIdSpec, optTruthy, h1, h2, h3]
    · by_cases h4 : lastSegment (stripQuery f.fileUrl) = ""
      · by_cases h2 : f.path = ""
        · simp [deriveFileId, deriveFileIdSpec, optTruthy, h1, h2, h4]
        · by_cases h3 : lastSegment f.path = "" <;>
            simp [deriveFileId, deriveFileIdSpec, optTruthy, h1, h2, h3, h4]
      · simp [deriveFileId, deriveFileIdSpec, optTruthy, h1, h4]

theorem emptyTrash_blob_deletion_plan_witness :
    (emptyTrash (some "u1") calmEnv [p9File, trashedRow]).2.2 =
      (((trashedOf "u1" [p9File, trashedRow]).filter
        (fun f => !f.isFolder)).map (rowAttempts calmEnv)).flatten :=
  (emptyTrash_blob_deletion_plan "u1" calmEnv [p9File, trashedRow]
    (by decide) (fun _ => rfl) (fun _ => rfl) (by decide)).1

end Droply
